import Mathlib

/-!
Verification of the SQL-chat Streamlit shell (`src/app.py`).

The app is a thin orchestration shell: it connects to MySQL, introspects the
schema for the sidebar, and forwards user questions to a LangChain agent.
We embed the shell's own logic shallowly:

* the MySQL server is modelled as an oracle (`MySQLServer`) giving the result
  of `mysql.connector.connect`, of `SHOW TABLES;`, and of
  `SHOW COLUMNS FROM <t>;` — each either a value or a raised exception
  message (`Except String _`), matching a Python call that may raise;
* `connect_to_mysql` and `get_table_schema` are translated line by line from
  `app.py`; `get_table_schema` additionally records the trace the claims are
  about: the SQL statements issued, how many connections were opened and
  closed, and the `st.error` messages shown;
* Python's dict assignment `schema[table_name] = columns` is modelled by
  `dictInsert` on an association list that preserves insertion order, as
  Python dicts do;
* `os.getenv` is modelled as a lookup in an environment
  `String → Option String`; interpolating its result into an f-string
  renders an absent variable as the string "None" (`pyFStr`), exactly as
  Python renders the value `None`;
* the query-submission handler (lines 100–109 of `app.py`) is
  `user_query_handler`: `if user_query:` is Python string truthiness
  (false only for the empty string), the `try` body builds the agent and
  runs it, and the `except` clause turns any raised message `e` into the
  single UI event `st.error ("❌ Error: " ++ e)`.  The handler is a total
  function into `HandlerResult`, reflecting that the `except Exception`
  clause lets no exception propagate.
-/

/-- Oracle for the MySQL server seen by `app.py`: the outcome of opening a
connection with the configured credentials, of `SHOW TABLES;` (the rows are
1-tuples, so we keep just the table name each row carries), and of
`SHOW COLUMNS FROM t;` (each row is a tuple whose first field, `col[0]` in
the Python, is the column name; the remaining fields are kept abstract).
An `Except.error e` models the Python call raising an exception rendering
as `e`. -/
structure MySQLServer where
  connect : Except String Unit
  showTables : Except String (List String)
  showColumns : String → Except String (List (String × List String))

/-- `connect_to_mysql` from `app.py` lines 19–31: try to open the
connection; on success return the handle, on any exception show
`st.error ("Database connection failed: " ++ e)` and return `None`.
The result is the optional handle together with the `st.error` messages
displayed. -/
def connect_to_mysql (db : MySQLServer) : Option Unit × List String :=
  match db.connect with
  | .ok u => (some u, [])
  | .error e => (none, ["Database connection failed: " ++ e])

/-- Python dict assignment `d[k] = v`: overwrite in place if the key is
present (keeping its original position), otherwise append at the end —
Python dicts preserve insertion order. -/
def dictInsert (d : List (String × List String)) (k : String)
    (v : List String) : List (String × List String) :=
  if d.any (fun p => p.1 == k) then
    d.map (fun p => if p.1 == k then (k, v) else p)
  else d ++ [(k, v)]

/-- The `for (table_name,) in tables:` loop of `get_table_schema`
(`app.py` lines 76–79).  For each table it issues
`SHOW COLUMNS FROM <t>;`, extracts `col[0]` of every row, and stores
the list under the table's name.  Returns the statements issued and
either the final schema or the exception that aborted the loop. -/
def showColumnsLoop (db : MySQLServer) (ts : List String)
    (schema : List (String × List String)) :
    List String × Except String (List (String × List String)) :=
  match ts with
  | [] => ([], .ok schema)
  | t :: rest =>
      let stmt := "SHOW COLUMNS FROM `" ++ t ++ "`;"
      match db.showColumns t with
      | .error e => ([stmt], .error e)
      | .ok rows =>
          let columns := rows.map (fun col => col.1)
          let r := showColumnsLoop db rest (dictInsert schema t columns)
          (stmt :: r.1, r.2)

/-- Observable trace of one `get_table_schema()` call: the SQL statements
the shell issued directly, how many connections it opened and closed, the
`st.error` messages displayed, and the outcome — `.ok schema` when the call
returns the dict normally, `.error e` when an uncaught exception `e`
propagates to the caller. -/
structure SchemaFetchTrace where
  statements : List String
  opened : Nat
  closed : Nat
  uiErrors : List String
  outcome : Except String (List (String × List String))
deriving Repr

/-- `get_table_schema` from `app.py` lines 69–82, translated line by line:
`schema = {}` then `conn = connect_to_mysql()`; if `conn` is `None` the
function just returns the empty dict.  Otherwise it executes
`SHOW TABLES;` (which may raise), loops over the tables issuing
`SHOW COLUMNS FROM <t>;` (each of which may raise), and only on the
all-success path reaches `cursor.close(); conn.close()`.  There is no
`try` in this function, so a raising query aborts it with the connection
left open. -/
def get_table_schema (db : MySQLServer) : SchemaFetchTrace :=
  match connect_to_mysql db with
  | (none, msgs) =>
      { statements := [], opened := 0, closed := 0, uiErrors := msgs,
        outcome := .ok [] }
  | (some _, msgs) =>
      match db.showTables with
      | .error e =>
          { statements := ["SHOW TABLES;"], opened := 1, closed := 0,
            uiErrors := msgs, outcome := .error e }
      | .ok tables =>
          let r := showColumnsLoop db tables []
          match r.2 with
          | .error e =>
              { statements := "SHOW TABLES;" :: r.1, opened := 1,
                closed := 0, uiErrors := msgs, outcome := .error e }
          | .ok schema =>
              { statements := "SHOW TABLES;" :: r.1, opened := 1,
                closed := 1, uiErrors := msgs, outcome := .ok schema }

/-- First exception raised by the metadata queries of one schema fetch, in
the order the code issues them: `SHOW TABLES;` first, then
`SHOW COLUMNS FROM <t>;` for each listed table in order. -/
def firstColumnsError (db : MySQLServer) : List String → Option String
  | [] => none
  | t :: rest =>
      match db.showColumns t with
      | .error e => some e
      | .ok _ => firstColumnsError db rest

/-- The exception, if any, that the metadata queries of a schema fetch
raise (connection assumed open). -/
def queryError (db : MySQLServer) : Option String :=
  match db.showTables with
  | .error e => some e
  | .ok ts => firstColumnsError db ts

/-- Whether an `Except`-valued Python call returned normally. -/
def exceptOk {α : Type} : Except String α → Bool
  | .ok _ => true
  | .error _ => false

/-- Python f-string interpolation of an `os.getenv` result: a set variable
contributes its value, an absent variable (Python `None`) renders as the
four-character string "None". -/
def pyFStr : Option String → String
  | none => "None"
  | some s => s

/-- The SQLAlchemy connection string built by `get_langchain_db`
(`app.py` lines 36–40):
`mysql+mysqlconnector://{USER}:{PASSWORD}@{HOST}/{DATABASE}` with each
field read from the environment at point of use. -/
def connection_str (env : String → Option String) : String :=
  "mysql+mysqlconnector://" ++ pyFStr (env "MYSQL_USER") ++ ":" ++
    pyFStr (env "MYSQL_PASSWORD") ++ "@" ++ pyFStr (env "MYSQL_HOST") ++
    "/" ++ pyFStr (env "MYSQL_DATABASE")

/-- One Streamlit display call made by the submission handler. -/
inductive UIEvent
  | spinner (msg : String)
  | success (msg : String)
  | write (msg : String)
  | error (msg : String)
deriving Repr, DecidableEq

/-- Oracle for `setup_agent()` and the agent it builds: setting up the
agent either raises (`.error e`) or yields an agent, itself a function
from the question to either an answer or a raised exception. -/
structure AgentEnv where
  setup : Except String (String → Except String String)

/-- Observable behaviour of one run of the submission handler: the UI
events displayed in order, how many times `setup_agent()` was entered, and
the arguments passed to `agent.run` in order.  The handler always returns
a `HandlerResult` — the `except Exception` clause catches everything, so
no exception escapes. -/
structure HandlerResult where
  events : List UIEvent
  setupCalls : Nat
  runArgs : List String
deriving Repr, DecidableEq

/-- The query-submission handler, `app.py` lines 100–109.
`if user_query:` is Python truthiness of a string — false exactly for
`""`, with no trimming.  Inside the spinner, the `try` body calls
`setup_agent()` and `agent.run(user_query)`; on normal return it shows
`st.success` then `st.write(response)`; if either call raises `e`, the
`except` clause shows only `st.error ("❌ Error: " ++ e)`. -/
def user_query_handler (env : AgentEnv) (user_query : String) :
    HandlerResult :=
  if user_query = "" then
    { events := [], setupCalls := 0, runArgs := [] }
  else
    match env.setup with
    | .error e =>
        { events := [.spinner "Processing...", .error ("❌ Error: " ++ e)],
          setupCalls := 1, runArgs := [] }
    | .ok run =>
        match run user_query with
        | .error e =>
            { events := [.spinner "Processing...",
                         .error ("❌ Error: " ++ e)],
              setupCalls := 1, runArgs := [user_query] }
        | .ok response =>
            { events := [.spinner "Processing...",
                         .success "✅ Query executed successfully!",
                         .write response],
              setupCalls := 1, runArgs := [user_query] }

/-! ### Concrete servers and agent environments used by witnesses -/

/-- A server with two tables `T1(a,b)` and `T2(c)`. -/
def dbTwoTables : MySQLServer :=
  { connect := .ok ()
    showTables := .ok ["T1", "T2"]
    showColumns := fun t =>
      if t == "T1" then .ok [("a", []), ("b", [])]
      else if t == "T2" then .ok [("c", [])]
      else .error "no such table" }

/-- A server that accepts the connection but whose metadata queries all
raise. -/
def dbGone : MySQLServer :=
  { connect := .ok ()
    showTables := .error "2006: MySQL server has gone away"
    showColumns := fun _ => .error "2006: MySQL server has gone away" }

/-- A server that rejects the connection attempt. -/
def dbDenied : MySQLServer :=
  { connect := .error "1045: Access denied"
    showTables := .ok []
    showColumns := fun _ => .ok [] }

/-- An agent environment whose setup raises "boom". -/
def agentBoom : AgentEnv := { setup := .error "boom" }

/-- An agent environment whose agent always answers "42". -/
def agent42 : AgentEnv := { setup := .ok (fun _ => .ok "42") }

/-! ### Claims about the submission handler -/

/-- Claim C3: for every non-empty submitted question, if agent setup or the
agent's run raises an exception `e`, the handler catches it and the page
shows exactly the spinner followed by one error message whose text
contains the exception's description (`"❌ Error: " ++ e`); no success
and no answer text is displayed, and — the handler being a total function
into `HandlerResult` — nothing propagates to the caller. -/
theorem handler_catches_agent_exception (env : AgentEnv) (q e : String)
    (hq : q ≠ "")
    (h : env.setup = .error e ∨
      ∃ run, env.setup = .ok run ∧ run q = .error e) :
    (user_query_handler env q).events =
      [UIEvent.spinner "Processing...", UIEvent.error ("❌ Error: " ++ e)] := by
  unfold user_query_handler
  rcases h with h | ⟨run, hs, hr⟩
  · simp [hq, h]
  · simp [hq, hs, hr]

/-- Witness for C3 at the spec's own example: an agent raising "boom". -/
theorem handler_catches_agent_exception_witness :
    (user_query_handler agentBoom "list the tables").events =
      [UIEvent.spinner "Processing...",
       UIEvent.error ("❌ Error: " ++ "boom")] :=
  handler_catches_agent_exception agentBoom "list the tables" "boom"
    (by decide) (Or.inl rfl)

/-- Claim C4: when the submitted question is the empty string the handler
does nothing: no UI event (neither success nor error), no call to
`setup_agent`, no call to `agent.run`. -/
theorem empty_query_no_agent (env : AgentEnv) :
    user_query_handler env "" =
      { events := [], setupCalls := 0, runArgs := [] } := by
  simp [user_query_handler]

/-- Claim C8: for every non-empty question, when the agent's run returns a
string without raising, the page shows the spinner, the success banner,
then exactly that string, unmodified. -/
theorem handler_success_passthrough (env : AgentEnv) (q r : String)
    (run : String → Except String String)
    (hq : q ≠ "") (hs : env.setup = .ok run) (hr : run q = .ok r) :
    (user_query_handler env q).events =
      [UIEvent.spinner "Processing...",
       UIEvent.success "✅ Query executed successfully!",
       UIEvent.write r] := by
  unfold user_query_handler
  simp [hq, hs, hr]

/-- Witness for C8 at the spec's own example: an agent returning "42". -/
theorem handler_success_passthrough_witness :
    (user_query_handler agent42 "how many rows?").events =
      [UIEvent.spinner "Processing...",
       UIEvent.success "✅ Query executed successfully!",
       UIEvent.write "42"] :=
  handler_success_passthrough agent42 "how many rows?" "42"
    (fun _ => .ok "42") (by decide) rfl rfl

/-- Claim C9: a question made only of whitespace is truthy in Python, so
the handler treats it as non-empty: `setup_agent` is entered, and when
setup succeeds `agent.run` receives the whitespace string itself,
untrimmed. -/
theorem whitespace_query_invokes_agent (env : AgentEnv) (q : String)
    (hq : q ≠ "") (hw : ∀ ch ∈ q.data, ch.isWhitespace) :
    (user_query_handler env q).setupCalls = 1 ∧
    ∀ run, env.setup = .ok run →
      (user_query_handler env q).runArgs = [q] := by
  constructor
  · unfold user_query_handler
    rw [if_neg hq]
    cases hs : env.setup with
    | error e => simp
    | ok run => cases hr : run q <;> simp [hr]
  · intro run hs
    unfold user_query_handler
    rw [if_neg hq, hs]
    cases hr : run q <;> simp [hr]

/-- Witness for C9 at a single-space question. -/
theorem whitespace_query_invokes_agent_witness :
    (user_query_handler agent42 " ").setupCalls = 1 ∧
    (user_query_handler agent42 " ").runArgs = [" "] := by
  have h := whitespace_query_invokes_agent agent42 " " (by decide) (by decide)
  exact ⟨h.1, h.2 (fun _ => .ok "42") rfl⟩

/-! ### Claims about the schema introspector -/

/-- Claim C1: with a successful connection to a database listing tables
`T1` (columns `a`, `b`) and `T2` (column `c`) in that order, the
introspector returns exactly the dict `[(T1, [a, b]), (T2, [c])]`, each
column list in the database's native order. -/
theorem get_table_schema_two_tables (db : MySQLServer)
    (T1 T2 a b c : String) (ra rb rc : List String)
    (hc : db.connect = .ok ())
    (ht : db.showTables = .ok [T1, T2])
    (h1 : db.showColumns T1 = .ok [(a, ra), (b, rb)])
    (h2 : db.showColumns T2 = .ok [(c, rc)])
    (hne : T1 ≠ T2) :
    (get_table_schema db).outcome = .ok [(T1, [a, b]), (T2, [c])] := by
  unfold get_table_schema connect_to_mysql
  rw [hc, ht]
  simp only [showColumnsLoop, h1, h2, dictInsert]
  simp [hne]

/-- Witness for C1 on the concrete two-table server. -/
theorem get_table_schema_two_tables_witness :
    (get_table_schema dbTwoTables).outcome =
      .ok [("T1", ["a", "b"]), ("T2", ["c"])] :=
  get_table_schema_two_tables dbTwoTables "T1" "T2" "a" "b" "c" [] [] []
    rfl rfl rfl rfl (by decide)

/-- Claim C2: when opening the connection raises, `connect_to_mysql`
catches the exception (showing one `st.error` message) and returns `None`,
and `get_table_schema` returns the empty dict, issuing no statement and
raising nothing to its caller. -/
theorem connect_failure_empty_schema (db : MySQLServer) (e : String)
    (hc : db.connect = .error e) :
    (connect_to_mysql db).1 = none ∧
    (connect_to_mysql db).2 = ["Database connection failed: " ++ e] ∧
    get_table_schema db =
      { statements := [], opened := 0, closed := 0,
        uiErrors := ["Database connection failed: " ++ e],
        outcome := .ok [] } := by
  unfold get_table_schema connect_to_mysql
  rw [hc]
  exact ⟨rfl, rfl, rfl⟩

/-- Witness for C2 on a server rejecting the credentials. -/
theorem connect_failure_empty_schema_witness :
    (connect_to_mysql dbDenied).1 = none ∧
    (connect_to_mysql dbDenied).2 =
      ["Database connection failed: " ++ "1045: Access denied"] ∧
    get_table_schema dbDenied =
      { statements := [], opened := 0, closed := 0,
        uiErrors := ["Database connection failed: " ++ "1045: Access denied"],
        outcome := .ok [] } :=
  connect_failure_empty_schema dbDenied "1045: Access denied" rfl

/-- When every per-table metadata query succeeds, the column loop issues
exactly one `SHOW COLUMNS FROM <t>;` per listed table, in order, and
completes normally, whatever dict it starts from. -/
theorem showColumnsLoop_statements (db : MySQLServer) :
    ∀ (ts : List String) (s : List (String × List String)),
      (∀ t ∈ ts, exceptOk (db.showColumns t) = true) →
      (showColumnsLoop db ts s).1 =
        ts.map (fun t => "SHOW COLUMNS FROM `" ++ t ++ "`;") ∧
      exceptOk (showColumnsLoop db ts s).2 = true
  | [], s, _ => by simp [showColumnsLoop, exceptOk]
  | t :: rest, s, hok => by
      have ht := hok t (by simp)
      cases hcol : db.showColumns t with
      | error e => rw [hcol] at ht; simp [exceptOk] at ht
      | ok rows =>
          have ih := showColumnsLoop_statements db rest
            (dictInsert s t (rows.map (fun col => col.1)))
            (fun u hu => hok u (by simp [hu]))
          simp [showColumnsLoop, hcol, ih.1, ih.2]

/-- Claim C6: on a successful connection to a database with tables `ts`
whose metadata queries all succeed, one schema fetch issues exactly
`ts.length + 1` statements: `SHOW TABLES;` first, then one
`SHOW COLUMNS FROM <t>;` per table in listed order — and nothing else. -/
theorem schema_fetch_statement_sequence (db : MySQLServer)
    (ts : List String)
    (hc : db.connect = .ok ())
    (ht : db.showTables = .ok ts)
    (hok : ∀ t ∈ ts, exceptOk (db.showColumns t) = true) :
    (get_table_schema db).statements =
      "SHOW TABLES;" ::
        ts.map (fun t => "SHOW COLUMNS FROM `" ++ t ++ "`;") ∧
    (get_table_schema db).statements.length = ts.length + 1 := by
  have h := showColumnsLoop_statements db ts [] hok
  unfold get_table_schema connect_to_mysql
  rw [hc, ht]
  cases hr : (showColumnsLoop db ts []).2 with
  | error e => rw [hr] at h; simp [exceptOk] at h
  | ok s =>
      simp only [hr]
      simp [h.1]

/-- Witness for C6 on the concrete two-table server. -/
theorem schema_fetch_statement_sequence_witness :
    (get_table_schema dbTwoTables).statements =
      "SHOW TABLES;" ::
        (["T1", "T2"].map (fun t => "SHOW COLUMNS FROM `" ++ t ++ "`;")) ∧
    (get_table_schema dbTwoTables).statements.length = 2 + 1 :=
  schema_fetch_statement_sequence dbTwoTables ["T1", "T2"] rfl rfl
    (by decide)

/-- Counterexample to claim C7: a call on which the connection opens
successfully but `SHOW TABLES;` raises terminates with the connection
still open — the claim that every successfully opened connection is
closed before the call returns (no connection outlives the call) is
false on this input. -/
theorem schema_fetch_leak_counterexample :
    (get_table_schema dbGone).opened = 1 ∧
    (get_table_schema dbGone).closed = 0 :=
  ⟨rfl, rfl⟩

/-- Claim C7 as amended: each schema fetch opens at most one connection,
and whenever the call completes normally (returns a dict instead of
propagating a query exception) every opened connection has been closed
before the return. -/
theorem schema_fetch_connection_discipline (db : MySQLServer) :
    (get_table_schema db).opened ≤ 1 ∧
    (exceptOk (get_table_schema db).outcome = true →
      (get_table_schema db).closed = (get_table_schema db).opened) := by
  cases hc : db.connect with
  | error e => simp [get_table_schema, connect_to_mysql, hc, exceptOk]
  | ok u =>
      cases ht : db.showTables with
      | error e =>
          simp [get_table_schema, connect_to_mysql, hc, ht, exceptOk]
      | ok ts =>
          cases hr : (showColumnsLoop db ts []).2 with
          | error e =>
              simp [get_table_schema, connect_to_mysql, hc, ht, hr,
                exceptOk]
          | ok s =>
              simp [get_table_schema, connect_to_mysql, hc, ht, hr,
                exceptOk]

/-- Witness for the amended C7 on the two-table server, whose fetch
completes normally. -/
theorem schema_fetch_connection_discipline_witness :
    (get_table_schema dbTwoTables).opened ≤ 1 ∧
    (get_table_schema dbTwoTables).closed =
      (get_table_schema dbTwoTables).opened :=
  ⟨(schema_fetch_connection_discipline dbTwoTables).1,
   (schema_fetch_connection_discipline dbTwoTables).2 (by decide)⟩

/-- The column loop aborts with exception `e` exactly when `e` is the
first exception among the per-table queries, whatever dict it starts
from. -/
theorem showColumnsLoop_error (db : MySQLServer) :
    ∀ (ts : List String) (s : List (String × List String)) (e : String),
      (showColumnsLoop db ts s).2 = .error e ↔
        firstColumnsError db ts = some e
  | [], s, e => by simp [showColumnsLoop, firstColumnsError]
  | t :: rest, s, e => by
      cases hcol : db.showColumns t with
      | error e0 =>
          simp [showColumnsLoop, firstColumnsError, hcol]
      | ok rows =>
          have ih := showColumnsLoop_error db rest
            (dictInsert s t (rows.map (fun col => col.1))) e
          simp [showColumnsLoop, firstColumnsError, hcol, ih]

/-- Claim C10: a schema fetch propagates exception `e` to its caller
exactly when the connection opened and `e` is the first exception raised
by the metadata queries (`SHOW TABLES;`, then `SHOW COLUMNS FROM <t>;`
per table in order); and on every such propagating call no dict is
returned and the opened connection is never closed. -/
theorem query_error_propagates (db : MySQLServer) (e : String) :
    ((get_table_schema db).outcome = .error e ↔
      db.connect = .ok () ∧ queryError db = some e) ∧
    ((get_table_schema db).outcome = .error e →
      (get_table_schema db).opened = 1 ∧
      (get_table_schema db).closed = 0) := by
  cases hc : db.connect with
  | error e0 =>
      simp [get_table_schema, connect_to_mysql, hc]
  | ok u =>
      cases ht : db.showTables with
      | error e0 =>
          simp [get_table_schema, connect_to_mysql, queryError, hc, ht]
      | ok ts =>
          cases hr : (showColumnsLoop db ts []).2 with
          | error e0 =>
              have hfirst := (showColumnsLoop_error db ts [] e0).mp hr
              constructor
              · simp only [get_table_schema, connect_to_mysql, queryError,
                  hc, ht, hr]
                constructor
                · intro he
                  refine ⟨trivial, ?_⟩
                  rw [← Except.error.inj he]
                  exact hfirst
                · intro he
                  rw [hfirst] at he
                  rw [Option.some.inj he.2]
              · intro _
                simp [get_table_schema, connect_to_mysql, hc, ht, hr]
          | ok s =>
              have hno : ∀ e1, firstColumnsError db ts ≠ some e1 :=
                fun e1 h1 =>
                  by simpa [hr] using (showColumnsLoop_error db ts [] e1).mpr h1
              constructor
              · simp [get_table_schema, connect_to_mysql, queryError,
                  hc, ht, hr]
                intro he
                exact absurd he (hno e)
              · intro habs
                simp [get_table_schema, connect_to_mysql, hc, ht, hr] at habs

/-- Witness for C10 on the server whose `SHOW TABLES;` raises: the
exception propagates and the connection is left open. -/
theorem query_error_propagates_witness :
    (get_table_schema dbGone).outcome =
      .error "2006: MySQL server has gone away" ∧
    (get_table_schema dbGone).closed = 0 := by
  have h := query_error_propagates dbGone "2006: MySQL server has gone away"
  have hout := h.1.mpr ⟨rfl, rfl⟩
  exact ⟨hout, (h.2 hout).2⟩

/-! ### Claims about configuration reads -/

/-- Environment with `MYSQL_USER` absent and the other connection
variables set. -/
def envMissingUser : String → Option String := fun k =>
  if k == "MYSQL_PASSWORD" then some "pw"
  else if k == "MYSQL_HOST" then some "localhost"
  else if k == "MYSQL_DATABASE" then some "mydb"
  else none

/-- Counterexample to claim C5: with `MYSQL_USER` absent, the connection
string built by `get_langchain_db` contains the four-character string
"None" in the user position — not the empty string the claim asserts. -/
theorem missing_env_not_empty_string :
    envMissingUser "MYSQL_USER" = none ∧
    connection_str envMissingUser =
      "mysql+mysqlconnector://None:pw@localhost/mydb" ∧
    connection_str envMissingUser ≠
      "mysql+mysqlconnector://:pw@localhost/mydb" := by
  refine ⟨rfl, rfl, ?_⟩
  decide

/-- Claim C5 as amended: a missing connection variable is read at point of
use without raising and without a default, and the value substituted into
the connection string in its place is the string "None" (Python's
f-string rendering of `None`) — the string is identical to the one built
with that variable explicitly set to "None". -/
theorem missing_env_substitutes_None (env : String → Option String)
    (v : String)
    (hv : v = "MYSQL_USER" ∨ v = "MYSQL_PASSWORD" ∨ v = "MYSQL_HOST" ∨
      v = "MYSQL_DATABASE")
    (h : env v = none) :
    pyFStr (env v) = "None" ∧
    connection_str env =
      connection_str (fun k => if k = v then some "None" else env k) := by
  refine ⟨by rw [h]; rfl, ?_⟩
  rcases hv with rfl | rfl | rfl | rfl <;>
    simp [connection_str, pyFStr, h]

/-- Witness for the amended C5 at the concrete environment missing
`MYSQL_USER`. -/
theorem missing_env_substitutes_None_witness :
    pyFStr (envMissingUser "MYSQL_USER") = "None" ∧
    connection_str envMissingUser =
      connection_str
        (fun k => if k = "MYSQL_USER" then some "None"
          else envMissingUser k) :=
  missing_env_substitutes_None envMissingUser "MYSQL_USER"
    (Or.inl rfl) rfl
